import Mathlib

set_option autoImplicit false

/-!
Shallow embedding of `src/homework.py` (a Telegram homework-status notifier).

Python values decoded from JSON (and Python `None`) are modelled by `JValue`.
All observable side effects of the script — the module-level mutable
`LIST_OF_ERRORS`, the log file, the Telegram delivery attempts, the point in
time, and the pending outcomes of the two external services — live in a
`World` record that is threaded explicitly.  Exceptions are modelled with
`Except PyExn`.  The external services are oracles stored in the `World`:

* `World.outcomes` drives `bot.send_message`: the head of the list is the
  outcome of the next delivery attempt (`false` raises `TelegramError`);
  an empty list means every further delivery succeeds.
* `World.http` drives `requests.get`: it maps the `from_date` value actually
  sent to the observed `HttpResult`.

The mutual recursion between `send_and_logging_error` and `send_message`
(the error-report path recurses through the sender on failure) is made total
with a fuel parameter; callers pass `tgFuel w`, which dominates the possible
recursion depth because every recursive step consumes at least one entry of
the finite `outcomes` oracle.
-/

/-- Python values decoded from a JSON body; `jnull` doubles as Python `None`. -/
inductive JValue where
  | jnull
  | jint (n : Int)
  | jstr (s : String)
  | jlist (xs : List JValue)
  | jdict (fields : List (String × JValue))

/-- Truthiness of a Python value (`bool(v)`), as used by
`current_timestamp or int(time.time())` in `get_api_answer`. -/
def pyTruthy : JValue → Bool
  | .jnull => false
  | .jint n => n != 0
  | .jstr s => s != ""
  | .jlist xs => !xs.isEmpty
  | .jdict ps => !ps.isEmpty

/-- Python `v is None`. -/
def jIsNull : JValue → Bool
  | .jnull => true
  | _ => false

/-- Python `isinstance(v, dict)`. -/
def isJDict : JValue → Bool
  | .jdict _ => true
  | _ => false

/-- Python `isinstance(v, list)`. -/
def isJList : JValue → Bool
  | .jlist _ => true
  | _ => false

/-- Python `d.get(k)` on a decoded-JSON mapping: an absent key yields `None`
(`jnull`).  Decoded JSON objects have distinct keys, so first-match lookup
agrees with Python dictionaries. -/
def pyDictGet (ps : List (String × JValue)) (k : String) : JValue :=
  match List.lookup k ps with
  | some v => v
  | none => .jnull

mutual

/-- Python `repr(v)` for decoded-JSON values (string escaping inside `repr`
of a string is not modelled; no string the program formats contains quotes). -/
def pyRepr : JValue → String
  | .jnull => "None"
  | .jint n => toString n
  | .jstr s => "'" ++ s ++ "'"
  | .jlist xs => "[" ++ pyReprList xs ++ "]"
  | .jdict ps => "\x7b" ++ pyReprFields ps ++ "\x7d"

/-- Comma-separated `repr`s of the elements of a Python list. -/
def pyReprList : List JValue → String
  | [] => ""
  | [x] => pyRepr x
  | x :: xs => pyRepr x ++ ", " ++ pyReprList xs

/-- Comma-separated `'key': repr(value)` entries of a Python dict. -/
def pyReprFields : List (String × JValue) → String
  | [] => ""
  | [(k, v)] => "'" ++ k ++ "': " ++ pyRepr v
  | (k, v) :: ps => "'" ++ k ++ "': " ++ pyRepr v ++ ", " ++ pyReprFields ps

end

/-- Python `str(v)` (what an f-string interpolation renders). -/
def pyStr : JValue → String
  | .jstr s => s
  | v => pyRepr v

/-- Levels of the `logging` calls the script makes. -/
inductive LogLevel where
  | debug
  | info
  | error
  | critical
deriving DecidableEq, Repr

/-- The `telegram.message.Message` object returned by a successful delivery;
only its identity as "a Message instance" matters to the script. -/
structure TgMessage where
  text : String
deriving DecidableEq, Repr

/-- The Python exceptions that can cross function boundaries in this script.
`telegramError` abstracts `telegram.TelegramError` (its provider-supplied
text is not modelled); `fuelOut` is the artifact of the termination fuel and
is unreachable for the fuel bounds the embedding uses. -/
inductive PyExn where
  | typeError (msg : String)
  | keyError (msg : String)
  | attributeError (msg : String)
  | indexError (msg : String)
  | telegramError
  | fuelOut
deriving DecidableEq, Repr

/-- Python `str(error)` as interpolated by `f'Сбой в работе программы: {error}'`:
`str` of a `KeyError` is the `repr` of its argument (quoted), the others
render their message verbatim. -/
def exnStr : PyExn → String
  | .typeError m => m
  | .keyError m => "'" ++ m ++ "'"
  | .attributeError m => m
  | .indexError m => m
  | .telegramError => "TelegramError"
  | .fuelOut => "fuelOut"

/-- Observed behaviour of one `requests.get(ENDPOINT, ...)` call: one of the
four raised request exceptions (carrying the text `str(error)` renders), or a
response with a status code and a body that either decodes as JSON or raises
`JSONDecodeError` in `.json()`. -/
inductive HttpResult where
  | raiseHttpError (e : String)
  | raiseConnectionError (e : String)
  | raiseTimeout (e : String)
  | raiseRequestException (e : String)
  | response (statusCode : Nat) (body : Except String JValue)

/-- The mutable state and the external-service oracles of one process run. -/
structure World where
  /-- the module-level `LIST_OF_ERRORS` -/
  errorsList : List String := []
  /-- every `logger.<level>(message)` call, in order -/
  logged : List (LogLevel × String) := []
  /-- every `bot.send_message` call (chat delivery call), in order -/
  attempts : List String := []
  /-- the subset of `attempts` that succeeded (messages delivered to chat) -/
  deliveries : List String := []
  /-- outcome oracle for `bot.send_message`; empty means "always succeed" -/
  outcomes : List Bool := []
  /-- oracle for `requests.get`, keyed by the `from_date` value sent -/
  http : JValue → HttpResult := fun _ => .response 200 (.ok .jnull)
  /-- `int(time.time())` -/
  now : Int := 0
  /-- durations of the `time.sleep` calls made, in order -/
  slept : List Nat := []

/-- Append one log record. -/
def logAt (lv : LogLevel) (m : String) (w : World) : World :=
  { w with logged := w.logged ++ [(lv, m)] }

def RETRY_TIME : Nat := 600

/-- Python `time.sleep(RETRY_TIME)`. -/
def sleepW (w : World) : World :=
  { w with slept := w.slept ++ [RETRY_TIME] }

/-- Python `bot.send_message(TELEGRAM_CHAT_ID, message)`: records the chat
delivery call, consumes one oracle entry, and either returns the Message
object or raises `TelegramError`. -/
def botSendMessage (message : String) (w : World) : Except PyExn TgMessage × World :=
  match w.outcomes with
  | [] =>
    (.ok ⟨message⟩,
      { w with attempts := w.attempts ++ [message],
               deliveries := w.deliveries ++ [message] })
  | true :: rest =>
    (.ok ⟨message⟩,
      { w with outcomes := rest,
               attempts := w.attempts ++ [message],
               deliveries := w.deliveries ++ [message] })
  | false :: rest =>
    (.error .telegramError,
      { w with outcomes := rest, attempts := w.attempts ++ [message] })

/-- Fuel that dominates the recursion depth of the
`send_and_logging_error`/`send_message` pair: each recursive step consumes at
least one entry of the finite `outcomes` oracle. -/
def tgFuel (w : World) : Nat :=
  2 * w.outcomes.length + 4

/-- The module-level `HOMEWORK_STATUSES` dictionary. -/
def HOMEWORK_STATUSES : List (String × String) :=
  [("approved", "Работа проверена: ревьюеру всё понравилось. Ура!"),
   ("reviewing", "Работа взята на проверку ревьюером."),
   ("rejected", "Работа проверена: у ревьюера есть замечания.")]

mutual

/-- Python `send_and_logging_error(message)`: logs the message at error
level, returns early if it is already in `LIST_OF_ERRORS`, otherwise sends it
via `send_message` and records it in `LIST_OF_ERRORS` only when a Message
instance came back.  An exception raised by `send_message` propagates. -/
def send_and_logging_error : Nat → String → World → Except PyExn Unit × World
  | 0, _, w => (.error .fuelOut, w)
  | fuel + 1, message, w =>
    let w := logAt .error message w
    if w.errorsList.contains message then
      (.ok (), w)
    else
      match send_message fuel message w with
      | (.error e, w₁) => (.error e, w₁)
      | (.ok tm, w₁) =>
        match tm with
        | some _ => (.ok (), { w₁ with errorsList := w₁.errorsList ++ [message] })
        | none => (.ok (), w₁)

/-- Python `send_message(bot, message)`: an initial unguarded delivery call
(whose result is immediately overwritten), then a second delivery inside
`try`; on `TelegramError` from the second call the failure is routed into
`send_and_logging_error` and `None` is returned.  A `TelegramError` from the
first, unguarded call — or from inside the `except` handler — propagates. -/
def send_message : Nat → String → World → Except PyExn (Option TgMessage) × World
  | 0, _, w => (.error .fuelOut, w)
  | fuel + 1, message, w =>
    match botSendMessage message w with
    | (.error e, w₁) => (.error e, w₁)
    | (.ok _, w₁) =>
      match botSendMessage message w₁ with
      | (.ok m, w₂) =>
        (.ok (some m), logAt .info ("Отправлено сообщение: " ++ message) w₂)
      | (.error _, w₂) =>
        match send_and_logging_error fuel ("НЕ Отправлено сообщение: " ++ message) w₂ with
        | (.error e, w₃) => (.error e, w₃)
        | (.ok _, w₃) => (.ok none, w₃)

end

/-- The `from_date` value `get_api_answer` sends:
`timestamp = current_timestamp or int(time.time())`. -/
def apiTimestamp (current_timestamp : JValue) (w : World) : JValue :=
  if pyTruthy current_timestamp then current_timestamp else .jint w.now

/-- Report a failure through `send_and_logging_error` and return `None`
(the shared shape of every failure branch of `get_api_answer` and of the
soft-failure branches of `check_response`). -/
def reportNone (msg : String) (w : World) : Except PyExn JValue × World :=
  match send_and_logging_error (tgFuel w) msg w with
  | (.error e, w₁) => (.error e, w₁)
  | (.ok _, w₁) => (.ok .jnull, w₁)

/-- Python `get_api_answer(current_timestamp)`: performs the GET through the
`World.http` oracle; every request exception, every non-200 status and a
non-JSON body are reported via `send_and_logging_error` and yield `None`
(the last branch by falling off the function's end). -/
def get_api_answer (current_timestamp : JValue) (w : World) : Except PyExn JValue × World :=
  let timestamp := apiTimestamp current_timestamp w
  match w.http timestamp with
  | .raiseHttpError e => reportNone ("Http Error: " ++ e) w
  | .raiseConnectionError e => reportNone ("Error Connecting: " ++ e) w
  | .raiseTimeout e => reportNone ("Timeout Error: " ++ e) w
  | .raiseRequestException e => reportNone ("Error: " ++ e) w
  | .response code body =>
    if code = 200 then
      match body with
      | .ok j => (.ok j, w)
      | .error _ => reportNone ("Ошибка преобразования в джейсон") w
    else
      reportNone ("В ответ от API статус " ++ toString code) w

/-- Python `check_response(response)`: raises `TypeError` on a non-dict,
reports-and-returns `None` when `homeworks` or `current_date` is missing or
`homeworks` is not a list, and otherwise returns the homework list. -/
def check_response (response : JValue) (w : World) : Except PyExn JValue × World :=
  match response with
  | .jdict ps =>
    let homeworks_list := pyDictGet ps ("homeworks")
    if jIsNull homeworks_list then
      reportNone ("В ответе от API нет ключа homeworks") w
    else
      let current_date := pyDictGet ps ("current_date")
      if jIsNull current_date then
        reportNone ("В ответе от API нет ключа current_date") w
      else if isJList homeworks_list then
        (.ok homeworks_list, w)
      else
        reportNone ("homeworks_list не список") w
  | _ => (.error (.typeError ("В ответ от API вернулся не словарь")), w)

/-- Python `HOMEWORK_STATUSES.get(homework_status)`: dictionary lookup keyed
by an arbitrary value; an unhashable key (list or dict) raises `TypeError`,
a hashable non-string key simply misses. -/
def statusVerdict : JValue → Except PyExn (Option String)
  | .jlist _ => .error (.typeError ("unhashable type"))
  | .jdict _ => .error (.typeError ("unhashable type"))
  | .jstr s => .ok (List.lookup s HOMEWORK_STATUSES)
  | _ => .ok none

/-- What the f-string renders for the verdict slot: the verdict text itself,
or `str(None) = "None"` when the status was unknown. -/
def verdictStr : Option String → String
  | some s => s
  | none => "None"

/-- Python `parse_status(homework)`: raises `KeyError` when
`homework_name` is missing, reports an unknown status via
`send_and_logging_error` (non-fatally), and returns the formatted sentence.
Calling `.get` on a non-dict raises `AttributeError`. -/
def parse_status (homework : JValue) (w : World) : Except PyExn String × World :=
  match homework with
  | .jdict ps =>
    let homework_name := pyDictGet ps ("homework_name")
    if jIsNull homework_name then
      (.error (.keyError ("В словаре homework нет поля homework_name")), w)
    else
      let homework_status := pyDictGet ps ("status")
      match statusVerdict homework_status with
      | .error e => (.error e, w)
      | .ok verdict =>
        let sentence :=
          "Изменился статус проверки работы \"" ++ pyStr homework_name ++ "\". "
            ++ verdictStr verdict
        match verdict with
        | some _ => (.ok sentence, w)
        | none =>
          match send_and_logging_error (tgFuel w)
              ("В ответе от API статус " ++ pyStr homework_status) w with
          | (.error e, w₁) => (.error e, w₁)
          | (.ok _, w₁) => (.ok sentence, w₁)
  | _ => (.error (.attributeError ("homework has no attribute get")), w)

/-- The three environment credentials read at module load. -/
structure Config where
  PRACTICUM_TOKEN : Option String
  TELEGRAM_TOKEN : Option String
  TELEGRAM_CHAT_ID : Option String

/-- Python `check_tokens()`. -/
def check_tokens (c : Config) : Bool :=
  if c.PRACTICUM_TOKEN = none then false
  else if c.TELEGRAM_TOKEN = none then false
  else if c.TELEGRAM_CHAT_ID = none then false
  else true

/-- The prologue of `main()`: on missing credentials it logs a critical
record and returns without entering the loop (`none`); otherwise the loop is
entered with `current_timestamp = int(time.time())` (`some` that value). -/
def mainEntry (c : Config) (w : World) : Option Int × World :=
  if check_tokens c then (some w.now, w)
  else (none, logAt .critical ("Не доступны переменные окружения!") w)

/-- Python `len(v)` (only sized values have a length). -/
def pyLen : JValue → Except PyExn Nat
  | .jstr s => .ok s.length
  | .jlist xs => .ok xs.length
  | .jdict ps => .ok ps.length
  | _ => .error (.typeError ("object has no len"))

/-- Python `v[0]`. -/
def pyIndex0 : JValue → Except PyExn JValue
  | .jlist (x :: _) => .ok x
  | .jlist [] => .error (.indexError ("list index out of range"))
  | .jstr s =>
    match s.data with
    | c :: _ => .ok (.jstr (String.mk [c]))
    | [] => .error (.indexError ("string index out of range"))
  | _ => .error (.typeError ("object is not subscriptable"))

/-- Python `v.get(k)`: only dictionaries have the `get` attribute. -/
def pyGetAttr (v : JValue) (k : String) : Except PyExn JValue :=
  match v with
  | .jdict ps => .ok (pyDictGet ps k)
  | _ => .error (.attributeError ("object has no attribute get"))

/-- How the `try` block of one iteration of `main`'s loop ends when it does
not raise: `earlyReturn` is the `return` statement taken on the `None`
sentinel (which exits `main`, skipping the `else` clause), `looped ts` is the
fall-through after `time.sleep` with `ts` the current value of the
`current_timestamp` variable. -/
inductive TryResult where
  | earlyReturn
  | looped (ts : JValue)

/-- What one whole iteration of `main`'s `while True` loop produces:
termination of `main`, or the `current_timestamp` the next iteration uses. -/
inductive StepRes where
  | terminated
  | next (ts : JValue)

/-- The `try` block of one iteration of `main`'s loop (lines 175-187).  A
raised exception is paired with the value the `current_timestamp` variable
holds at that point — it is reassigned from the record's `current_date`
before `parse_status` runs, so later failures keep the advanced value. -/
def mainTry (ts : JValue) (w : World) : Except (PyExn × JValue) TryResult × World :=
  match get_api_answer ts w with
  | (.error e, w₁) => (.error (e, ts), w₁)
  | (.ok response, w₁) =>
    match check_response response w₁ with
    | (.error e, w₂) => (.error (e, ts), w₂)
    | (.ok homeworks_list, w₂) =>
      if jIsNull homeworks_list then
        (.ok .earlyReturn, w₂)
      else
        match pyLen homeworks_list with
        | .error e => (.error (e, ts), w₂)
        | .ok n =>
          if n > 0 then
            match pyIndex0 homeworks_list with
            | .error e => (.error (e, ts), w₂)
            | .ok homework =>
              match pyGetAttr homework ("current_date") with
              | .error e => (.error (e, ts), w₂)
              | .ok ts₁ =>
                match parse_status homework w₂ with
                | (.error e, w₃) => (.error (e, ts₁), w₃)
                | (.ok message, w₃) =>
                  match send_message (tgFuel w₃) message w₃ with
                  | (.error e, w₄) => (.error (e, ts₁), w₄)
                  | (.ok _, w₄) => (.ok (.looped ts₁), sleepW w₄)
          else
            (.ok (.looped ts), sleepW w₂)

/-- One whole iteration of `main`'s loop: the `try` block, then either the
`except Exception` handler (report `f'Сбой в работе программы: {error}'`,
sleep, continue) or — when no exception was raised and `return` was not
taken — the `else` clause, which reports `'неопознанный косяк'`.  An
exception raised by the reporting itself propagates out of `main`. -/
def mainIter (ts : JValue) (w : World) : Except PyExn StepRes × World :=
  match mainTry ts w with
  | (.ok .earlyReturn, w₁) => (.ok .terminated, w₁)
  | (.ok (.looped ts₁), w₁) =>
    match send_and_logging_error (tgFuel w₁) ("неопознанный косяк") w₁ with
    | (.error e, w₂) => (.error e, w₂)
    | (.ok _, w₂) => (.ok (.next ts₁), w₂)
  | (.error (e, tsCur), w₁) =>
    match send_and_logging_error (tgFuel w₁)
        ("Сбой в работе программы: " ++ exnStr e) w₁ with
    | (.error e₁, w₂) => (.error e₁, w₂)
    | (.ok _, w₂) => (.ok (.next tsCur), sleepW w₂)

/-- The error-level log records of a world.  `send_and_logging_error` is the
only code path that logs at error level, and it logs exactly once per call,
so these records count the error reports made through the notifier. -/
def errorsLogged (w : World) : List (LogLevel × String) :=
  w.logged.filter (fun e => e.1 == LogLevel.error)

/-- The error text `get_api_answer` reports for a given observed HTTP
outcome, or `none` when the outcome is a decodable 200 response. -/
def httpFailMsg : HttpResult → Option String
  | .raiseHttpError e => some ("Http Error: " ++ e)
  | .raiseConnectionError e => some ("Error Connecting: " ++ e)
  | .raiseTimeout e => some ("Timeout Error: " ++ e)
  | .raiseRequestException e => some ("Error: " ++ e)
  | .response code body =>
    if code = 200 then
      match body with
      | .ok _ => none
      | .error _ => some ("Ошибка преобразования в джейсон")
    else
      some ("В ответ от API статус " ++ toString code)

/-- A mapping response whose shape `check_response` soft-rejects: the
`homeworks` key absent, the `current_date` key absent, or the `homeworks`
value not a list. -/
def badShape : JValue → Bool
  | .jdict ps =>
    jIsNull (pyDictGet ps ("homeworks")) ||
    jIsNull (pyDictGet ps ("current_date")) ||
    !isJList (pyDictGet ps ("homeworks"))
  | _ => false

/-- With an all-success delivery oracle (`outcomes = []`), `send_message`
issues the delivery twice — the unguarded call of line 57 and the guarded
one — logs the confirmation, and returns the Message object. -/
theorem send_message_allOk (fuel : Nat) (msg : String) (w : World)
    (hf : 1 ≤ fuel) (h : w.outcomes = []) :
    send_message fuel msg w =
      (.ok (some ⟨msg⟩),
        { w with
            attempts := w.attempts ++ [msg] ++ [msg],
            deliveries := w.deliveries ++ [msg] ++ [msg],
            logged := w.logged ++ [(.info, "Отправлено сообщение: " ++ msg)] }) := by
  obtain ⟨f, rfl⟩ : ∃ f, fuel = f + 1 := ⟨fuel - 1, by omega⟩
  simp [send_message, botSendMessage, logAt, h, List.append_assoc]

/-- With an all-success delivery oracle, `send_and_logging_error` returns
normally, logs exactly one new error-level record (its message), and leaves
the oracles, the clock and the sleep trace unchanged; successful deliveries
are preserved. -/
theorem sale_spec (fuel : Nat) (msg : String) (w : World)
    (hf : 2 ≤ fuel) (h : w.outcomes = []) :
    ∃ w₁, send_and_logging_error fuel msg w = (.ok (), w₁) ∧
      w₁.outcomes = [] ∧ w₁.http = w.http ∧ w₁.now = w.now ∧ w₁.slept = w.slept ∧
      errorsLogged w₁ = errorsLogged w ++ [(.error, msg)] ∧
      (.error, msg) ∈ w₁.logged ∧
      (∀ x, x ∈ w.deliveries → x ∈ w₁.deliveries) := by
  obtain ⟨f, rfl⟩ : ∃ f, fuel = f + 1 := ⟨fuel - 1, by omega⟩
  by_cases hc : msg ∈ w.errorsList
  · refine ⟨logAt .error msg w, ?_, ?_, ?_, ?_, ?_, ?_, ?_, ?_⟩ <;>
      simp [send_and_logging_error, logAt, errorsLogged, List.filter_append, hc, h]
  · have hm := send_message_allOk f msg (logAt .error msg w) (by omega) (by simpa [logAt] using h)
    simp only [logAt, h] at hm
    refine ⟨{ w with
        errorsList := w.errorsList ++ [msg],
        logged := w.logged ++ [(.error, msg)] ++ [(.info, "Отправлено сообщение: " ++ msg)],
        attempts := w.attempts ++ [msg] ++ [msg],
        deliveries := w.deliveries ++ [msg] ++ [msg] }, ?_, by simpa using h, rfl, rfl, rfl,
        ?_, by simp, ?_⟩
    · simp [send_and_logging_error, logAt, h, hc, hm]
    · simp [errorsLogged, List.filter_append]
    · intro x hx
      simp [List.mem_append, hx]

/-- With an all-success delivery oracle, each failure branch that reports and
returns `None` does exactly that: one new error-level record, sentinel
result, oracles and clock untouched. -/
theorem reportNone_spec (msg : String) (w : World) (h : w.outcomes = []) :
    ∃ w₁, reportNone msg w = (.ok .jnull, w₁) ∧
      w₁.outcomes = [] ∧ w₁.http = w.http ∧ w₁.now = w.now ∧ w₁.slept = w.slept ∧
      errorsLogged w₁ = errorsLogged w ++ [(.error, msg)] ∧
      (.error, msg) ∈ w₁.logged := by
  obtain ⟨w₁, hw, h1, h2, h3, h4, h5, h6, _⟩ :=
    sale_spec (tgFuel w) msg w (by unfold tgFuel; omega) h
  exact ⟨w₁, by simp [reportNone, hw], h1, h2, h3, h4, h5, h6⟩

/-- A fresh process state: empty `LIST_OF_ERRORS`, empty log, no delivery
attempts yet, and both external services responding successfully. -/
def freshWorld : World := {}

/-- C1: refutation by evaluation.  In a fresh process with every chat
delivery succeeding, a single `send_and_logging_error("err")` call makes TWO
chat delivery calls carrying the string `"err"` — the unguarded duplicate
`bot.send_message` on line 57 plus the guarded one — so "at most one chat
delivery call per error string" fails already on the first report.  The
nearby deduplication property does hold: reporting `"err"` a second time
after the successful delivery adds no further delivery attempt. -/
theorem sale_double_delivery_eval :
    (send_and_logging_error 4 ("err") freshWorld).snd.attempts = ["err", "err"] ∧
    (send_and_logging_error 4 ("err")
        (send_and_logging_error 4 ("err") freshWorld).snd).snd.attempts
      = ["err", "err"] := by
  constructor <;> rfl

/-- C2: refutation by evaluation.  When the provider fails the delivery, the
first, unguarded `bot.send_message` call (line 57) raises before the `try`
block is entered, so `send_message` propagates `TelegramError` to its caller;
no error-reporting happens (the log stays empty, so `send_and_logging_error`
was never invoked). -/
theorem send_message_unguarded_raise_eval :
    (send_message 4 ("m") { outcomes := [false] }).fst = .error .telegramError ∧
    (send_message 4 ("m") { outcomes := [false] }).snd.logged = [] ∧
    (send_message 4 ("m") { outcomes := [false] }).snd.attempts = ["m"] := by
  refine ⟨rfl, rfl, rfl⟩

/-- C3: a homework record with a `homework_name` whose status is unknown —
any hashable status value (string, number, or missing) outside
`HOMEWORK_STATUSES`, captured by `statusVerdict _ = .ok none` — makes
`parse_status` report the condition through the notifier (the error-level
record appears in the log) and still return the sentence, whose verdict slot
renders Python's explicit unknown marker `str(None) = "None"`.  Delivery
succeeding (`outcomes = []`) keeps the report itself from raising. -/
theorem parse_status_unknown_status (ps : List (String × JValue)) (w : World)
    (h₁ : jIsNull (pyDictGet ps ("homework_name")) = false)
    (h₂ : statusVerdict (pyDictGet ps ("status")) = .ok none)
    (h₃ : w.outcomes = []) :
    (parse_status (.jdict ps) w).fst =
      .ok ("Изменился статус проверки работы \"" ++ pyStr (pyDictGet ps ("homework_name"))
        ++ "\". " ++ "None") ∧
    (.error, ("В ответе от API статус " ++ pyStr (pyDictGet ps ("status"))))
      ∈ (parse_status (.jdict ps) w).snd.logged := by
  obtain ⟨w₁, hw, _, _, _, _, _, hmem, _⟩ :=
    sale_spec (tgFuel w) ("В ответе от API статус " ++ pyStr (pyDictGet ps ("status"))) w
      (by unfold tgFuel; omega) h₃
  constructor <;> simp [parse_status, h₁, h₂, hw, verdictStr]
  exact hmem

/-- C3 witness: a concrete record with an unknown string status. -/
theorem parse_status_unknown_status_witness :
    (parse_status (.jdict [("homework_name", .jstr ("hw")), ("status", .jstr ("weird"))])
        freshWorld).fst =
      .ok ("Изменился статус проверки работы \"hw\". None") ∧
    (.error, ("В ответе от API статус weird"))
      ∈ (parse_status (.jdict [("homework_name", .jstr ("hw")), ("status", .jstr ("weird"))])
          freshWorld).snd.logged :=
  parse_status_unknown_status
    [("homework_name", .jstr ("hw")), ("status", .jstr ("weird"))] freshWorld rfl rfl rfl

/-- C8: a record with a `homework_name` and one of the three known statuses
makes `parse_status` return, without any side effect, the sentence carrying
exactly the verdict text `HOMEWORK_STATUSES` maps that status to. -/
theorem parse_status_known_status (ps : List (String × JValue)) (w : World)
    (s verdict : String)
    (h₁ : jIsNull (pyDictGet ps ("homework_name")) = false)
    (h₂ : pyDictGet ps ("status") = .jstr s)
    (h₃ : List.lookup s HOMEWORK_STATUSES = some verdict) :
    parse_status (.jdict ps) w =
      (.ok ("Изменился статус проверки работы \"" ++ pyStr (pyDictGet ps ("homework_name"))
        ++ "\". " ++ verdict), w) := by
  simp [parse_status, h₁, h₂, statusVerdict, h₃, verdictStr]

/-- C8 witness: the `approved` status yields its exact verdict text. -/
theorem parse_status_known_status_witness :
    parse_status (.jdict [("homework_name", .jstr ("hw")), ("status", .jstr ("approved"))])
        freshWorld =
      (.ok ("Изменился статус проверки работы \"hw\". Работа проверена: ревьюеру всё понравилось. Ура!"),
        freshWorld) :=
  parse_status_known_status
    [("homework_name", .jstr ("hw")), ("status", .jstr ("approved"))] freshWorld
    ("approved") ("Работа проверена: ревьюеру всё понравилось. Ура!") rfl rfl rfl

/-- C4: whatever failure the HTTP oracle produces for the timestamp actually
sent — a request exception, a non-200 status, or a non-JSON body, i.e. any
outcome `httpFailMsg` assigns an error text to — `get_api_answer` reports
that text through the notifier and returns the `None` sentinel; with
deliveries succeeding no exception escapes, and the embedding catches every
request exception in all cases, so the underlying error never propagates. -/
theorem get_api_answer_failure (ts : JValue) (w : World) (m : String)
    (h : w.outcomes = [])
    (hm : httpFailMsg (w.http (apiTimestamp ts w)) = some m) :
    (get_api_answer ts w).fst = .ok .jnull ∧
    (.error, m) ∈ (get_api_answer ts w).snd.logged := by
  cases hr : w.http (apiTimestamp ts w) with
  | raiseHttpError e =>
    rw [hr] at hm
    simp [httpFailMsg] at hm
    subst hm
    obtain ⟨w₁, hw, _, _, _, _, _, hmem⟩ := reportNone_spec ("Http Error: " ++ e) w h
    constructor <;> simp [get_api_answer, hr, hw]
    exact hmem
  | raiseConnectionError e =>
    rw [hr] at hm
    simp [httpFailMsg] at hm
    subst hm
    obtain ⟨w₁, hw, _, _, _, _, _, hmem⟩ := reportNone_spec ("Error Connecting: " ++ e) w h
    constructor <;> simp [get_api_answer, hr, hw]
    exact hmem
  | raiseTimeout e =>
    rw [hr] at hm
    simp [httpFailMsg] at hm
    subst hm
    obtain ⟨w₁, hw, _, _, _, _, _, hmem⟩ := reportNone_spec ("Timeout Error: " ++ e) w h
    constructor <;> simp [get_api_answer, hr, hw]
    exact hmem
  | raiseRequestException e =>
    rw [hr] at hm
    simp [httpFailMsg] at hm
    subst hm
    obtain ⟨w₁, hw, _, _, _, _, _, hmem⟩ := reportNone_spec ("Error: " ++ e) w h
    constructor <;> simp [get_api_answer, hr, hw]
    exact hmem
  | response code body =>
    rw [hr] at hm
    by_cases hc : code = 200
    · subst hc
      cases body with
      | ok j => simp [httpFailMsg] at hm
      | error je =>
        simp [httpFailMsg] at hm
        subst hm
        obtain ⟨w₁, hw, _, _, _, _, _, hmem⟩ :=
          reportNone_spec ("Ошибка преобразования в джейсон") w h
        constructor <;> simp [get_api_answer, hr, hw]
        exact hmem
    · simp [httpFailMsg, hc] at hm
      subst hm
      obtain ⟨w₁, hw, _, _, _, _, _, hmem⟩ :=
        reportNone_spec ("В ответ от API статус " ++ toString code) w h
      constructor <;> simp [get_api_answer, hr, hc, hw]
      exact hmem

/-- C4 witness: the endpoint answers HTTP 500; one error is reported and the
sentinel comes back (the spec's §8 scenario). -/
theorem get_api_answer_failure_witness :
    (get_api_answer (.jint 1) { http := fun _ => .response 500 (.ok .jnull) }).fst
      = .ok .jnull ∧
    (.error, ("В ответ от API статус 500"))
      ∈ (get_api_answer (.jint 1) { http := fun _ => .response 500 (.ok .jnull) }).snd.logged :=
  get_api_answer_failure (.jint 1) { http := fun _ => .response 500 (.ok .jnull) }
    ("В ответ от API статус 500") rfl rfl

/-- C6: a mapping response with `homeworks` absent, or `current_date` absent,
or a non-list `homeworks` value makes `check_response` log exactly one new
error-level record (one notifier report) and return the `None` sentinel; and
when such a response is what the HTTP oracle serves, the loop iteration hits
the `if homeworks_list is None: return` branch and `main` terminates instead
of retrying. -/
theorem check_response_bad_shape (resp ts : JValue) (w : World)
    (h : w.outcomes = []) (hb : badShape resp = true) :
    (check_response resp w).fst = .ok .jnull ∧
    (∃ m, errorsLogged (check_response resp w).snd = errorsLogged w ++ [(.error, m)]) ∧
    (w.http (apiTimestamp ts w) = .response 200 (.ok resp) →
      (mainIter ts w).fst = .ok .terminated) := by
  have key : ∃ m w₁, check_response resp w = (.ok .jnull, w₁) ∧
      errorsLogged w₁ = errorsLogged w ++ [(.error, m)] := by
    cases resp with
    | jdict ps =>
      simp only [badShape, Bool.or_eq_true] at hb
      cases hA : jIsNull (pyDictGet ps ("homeworks")) with
      | true =>
        obtain ⟨w₁, hw, _, _, _, _, he, _⟩ :=
          reportNone_spec ("В ответе от API нет ключа homeworks") w h
        exact ⟨_, w₁, by simp [check_response, hA, hw], he⟩
      | false =>
        cases hB : jIsNull (pyDictGet ps ("current_date")) with
        | true =>
          obtain ⟨w₁, hw, _, _, _, _, he, _⟩ :=
            reportNone_spec ("В ответе от API нет ключа current_date") w h
          exact ⟨_, w₁, by simp [check_response, hA, hB, hw], he⟩
        | false =>
          have hC : isJList (pyDictGet ps ("homeworks")) = false := by
            rcases hb with (h1 | h1) | h1
            · simp [hA] at h1
            · simp [hB] at h1
            · simpa using h1
          obtain ⟨w₁, hw, _, _, _, _, he, _⟩ :=
            reportNone_spec ("homeworks_list не список") w h
          exact ⟨_, w₁, by simp [check_response, hA, hB, hC, hw], he⟩
    | jnull => simp [badShape] at hb
    | jint n => simp [badShape] at hb
    | jstr s => simp [badShape] at hb
    | jlist xs => simp [badShape] at hb
  obtain ⟨m, w₁, hcr, he⟩ := key
  refine ⟨by simp [hcr], ⟨m, by simp [hcr, he]⟩, ?_⟩
  intro hh
  simp [mainIter, mainTry, get_api_answer, hh, hcr, jIsNull]

/-- C6 witness: a response carrying only `current_date` (no `homeworks`
key), served by the HTTP oracle with status 200. -/
theorem check_response_bad_shape_witness :
    (check_response (.jdict [("current_date", .jint 1)])
        { http := fun _ => .response 200 (.ok (.jdict [("current_date", .jint 1)])) }).fst
      = .ok .jnull ∧
    (∃ m, errorsLogged (check_response (.jdict [("current_date", .jint 1)])
        { http := fun _ => .response 200 (.ok (.jdict [("current_date", .jint 1)])) }).snd
      = errorsLogged
          { http := fun _ => .response 200 (.ok (.jdict [("current_date", .jint 1)])) }
        ++ [(.error, m)]) ∧
    (({ http := fun _ => .response 200 (.ok (.jdict [("current_date", .jint 1)])) }
        : World).http
          (apiTimestamp (.jint 1)
            { http := fun _ => .response 200 (.ok (.jdict [("current_date", .jint 1)])) })
        = .response 200 (.ok (.jdict [("current_date", .jint 1)])) →
      (mainIter (.jint 1)
          { http := fun _ => .response 200 (.ok (.jdict [("current_date", .jint 1)])) }).fst
        = .ok .terminated) :=
  check_response_bad_shape (.jdict [("current_date", .jint 1)]) (.jint 1)
    { http := fun _ => .response 200 (.ok (.jdict [("current_date", .jint 1)])) } rfl rfl

/-- A run whose API serves a 200 response that is not a mapping (a bare
number), triggering `check_response`'s `TypeError` inside the loop. -/
def loopWorldNonDict : World := { http := fun _ => .response 200 (.ok (.jint 5)) }

/-- A run whose API serves a well-shaped envelope holding one homework
record without a `homework_name`, triggering `parse_status`'s `KeyError`
inside the loop. -/
def loopWorldNoName : World :=
  { http := fun _ => .response 200 (.ok (.jdict
      [("homeworks", .jlist [.jdict [("status", .jstr ("approved"))]]),
       ("current_date", .jint 9)])) }

/-- C7: both contract violations raise — `check_response` raises `TypeError`
on any non-mapping and `parse_status` raises `KeyError` on a record without
`homework_name`, neither reporting nor returning a sentinel — and inside the
loop each exception is caught by the catch-all, reported as
`f'Сбой в работе программы: {error}'` (a `KeyError` renders quoted, as
Python's `str` of a `KeyError` does), and the loop continues to a next
iteration after the one retry sleep. -/
theorem contract_violations_hard_error (w : World) (v : JValue)
    (ps : List (String × JValue))
    (hv : isJDict v = false)
    (hn : jIsNull (pyDictGet ps ("homework_name")) = true) :
    check_response v w = (.error (.typeError ("В ответ от API вернулся не словарь")), w) ∧
    parse_status (.jdict ps) w
      = (.error (.keyError ("В словаре homework нет поля homework_name")), w) ∧
    (mainIter (.jint 1) loopWorldNonDict).fst = .ok (.next (.jint 1)) ∧
    (.error, ("Сбой в работе программы: В ответ от API вернулся не словарь"))
      ∈ (mainIter (.jint 1) loopWorldNonDict).snd.logged ∧
    (mainIter (.jint 1) loopWorldNonDict).snd.slept = [600] ∧
    (mainIter (.jint 1) loopWorldNoName).fst = .ok (.next .jnull) ∧
    (.error, ("Сбой в работе программы: 'В словаре homework нет поля homework_name'"))
      ∈ (mainIter (.jint 1) loopWorldNoName).snd.logged ∧
    (mainIter (.jint 1) loopWorldNoName).snd.slept = [600] := by
  refine ⟨?_, ?_, rfl, by decide, rfl, rfl, by decide, rfl⟩
  · cases v <;> first | rfl | simp [isJDict] at hv
  · simp [parse_status, hn]

/-- C7 witness: a bare-number response and a name-less record. -/
theorem contract_violations_hard_error_witness :
    check_response (.jint 0) freshWorld
      = (.error (.typeError ("В ответ от API вернулся не словарь")), freshWorld) ∧
    parse_status (.jdict [("status", .jstr ("x"))]) freshWorld
      = (.error (.keyError ("В словаре homework нет поля homework_name")), freshWorld) ∧
    (mainIter (.jint 1) loopWorldNonDict).fst = .ok (.next (.jint 1)) ∧
    (.error, ("Сбой в работе программы: В ответ от API вернулся не словарь"))
      ∈ (mainIter (.jint 1) loopWorldNonDict).snd.logged ∧
    (mainIter (.jint 1) loopWorldNonDict).snd.slept = [600] ∧
    (mainIter (.jint 1) loopWorldNoName).fst = .ok (.next .jnull) ∧
    (.error, ("Сбой в работе программы: 'В словаре homework нет поля homework_name'"))
      ∈ (mainIter (.jint 1) loopWorldNoName).snd.logged ∧
    (mainIter (.jint 1) loopWorldNoName).snd.slept = [600] :=
  contract_violations_hard_error freshWorld (.jint 0) [("status", .jstr ("x"))] rfl rfl

/-- C9: `check_tokens` is `True` exactly when all three credentials are
present, and whenever one is absent, `main` logs the critical record and
returns without entering the polling loop (`mainEntry` yields no initial
timestamp). -/
theorem check_tokens_spec (c : Config) (w : World) :
    (check_tokens c = true ↔
      (c.PRACTICUM_TOKEN ≠ none ∧ c.TELEGRAM_TOKEN ≠ none ∧ c.TELEGRAM_CHAT_ID ≠ none)) ∧
    ((c.PRACTICUM_TOKEN = none ∨ c.TELEGRAM_TOKEN = none ∨ c.TELEGRAM_CHAT_ID = none) →
      (mainEntry c w).fst = none ∧
      (.critical, ("Не доступны переменные окружения!")) ∈ (mainEntry c w).snd.logged) := by
  obtain ⟨p, t, i⟩ := c
  constructor
  · cases p <;> cases t <;> cases i <;> simp [check_tokens]
  · intro hn
    have hf : check_tokens ⟨p, t, i⟩ = false := by
      cases p <;> cases t <;> cases i <;> simp_all [check_tokens]
    simp [mainEntry, hf, logAt]

/-- C9 witness: all three credentials missing. -/
theorem check_tokens_spec_witness :
    (check_tokens ⟨none, none, none⟩ = true ↔
      ((none : Option String) ≠ none ∧ (none : Option String) ≠ none ∧
        (none : Option String) ≠ none)) ∧
    (((none : Option String) = none ∨ (none : Option String) = none ∨
        (none : Option String) = none) →
      (mainEntry ⟨none, none, none⟩ freshWorld).fst = none ∧
      (.critical, ("Не доступны переменные окружения!"))
        ∈ (mainEntry ⟨none, none, none⟩ freshWorld).snd.logged) :=
  check_tokens_spec ⟨none, none, none⟩ freshWorld

/-- C10: whenever the `try` block of an iteration runs to completion without
raising and without taking the early `return` — the `looped` outcome, i.e.
fetch, validate, notify and sleep all succeeded — the iteration's `else`
clause invokes the error-reporting path with `'неопознанный косяк'` before
the next iteration begins: `mainIter` is exactly that report applied to the
post-`try` state, and the report's error-level record is in the final log. -/
theorem glitch_after_success (w w₁ : World) (ts ts₁ : JValue)
    (h : mainTry ts w = (.ok (.looped ts₁), w₁)) (h₁ : w₁.outcomes = []) :
    ∃ w₂, send_and_logging_error (tgFuel w₁) ("неопознанный косяк") w₁ = (.ok (), w₂) ∧
      mainIter ts w = (.ok (.next ts₁), w₂) ∧
      (.error, ("неопознанный косяк")) ∈ w₂.logged := by
  obtain ⟨w₂, hw, _, _, _, _, _, hmem, _⟩ :=
    sale_spec (tgFuel w₁) ("неопознанный косяк") w₁ (by unfold tgFuel; omega) h₁
  exact ⟨w₂, hw, by simp [mainIter, h, hw], hmem⟩

/-- A run whose API serves a well-shaped envelope with an empty homework
list: the iteration succeeds end to end doing nothing. -/
def glitchWorld : World :=
  { http := fun _ => .response 200 (.ok (.jdict
      [("homeworks", .jlist []), ("current_date", .jint 7)])) }

/-- C10 witness: one fully successful (empty-list) iteration. -/
theorem glitch_after_success_witness :
    ∃ w₂, send_and_logging_error (tgFuel (sleepW glitchWorld)) ("неопознанный косяк")
        (sleepW glitchWorld) = (.ok (), w₂) ∧
      mainIter (.jint 1) glitchWorld = (.ok (.next (.jint 1)), w₂) ∧
      (.error, ("неопознанный косяк")) ∈ w₂.logged :=
  glitch_after_success glitchWorld (sleepW glitchWorld) (.jint 1) (.jint 1) rfl rfl

/-- The spec's §8 scenario run: the API serves one approved homework with
record-level `current_date = 123` and envelope-level `current_date = 456`. -/
def scenarioWorld : World :=
  { http := fun _ => .response 200 (.ok (.jdict
      [("homeworks", .jlist [.jdict
          [("homework_name", .jstr ("hw1")),
           ("status", .jstr ("approved")),
           ("current_date", .jint 123)]]),
       ("current_date", .jint 456)])) }

/-- C5: on that response, one loop iteration delivers exactly the expected
sentence to the chat and hands the next iteration the timestamp `123` taken
from the record (not the envelope's `456`). -/
theorem main_iteration_scenario_hw1 :
    (mainIter (.jint 1) scenarioWorld).fst = .ok (.next (.jint 123)) ∧
    ("Изменился статус проверки работы \"hw1\". Работа проверена: ревьюеру всё понравилось. Ура!")
      ∈ (mainIter (.jint 1) scenarioWorld).snd.deliveries := by
  constructor
  · rfl
  · decide
